import Mathlib

/-!
Verification of the google-sheets-mcp dispatcher (src/api/mcp.ts).

The file shallowly embeds the JSON-RPC envelope dispatcher, the tool
registry, the tool invoker and the identifier normalizer, and proves the
spec claims about them. External Google API calls are modelled by an
oracle function from the call description to a success value or a thrown
failure message.
-/

namespace SheetsMcp

/-- JSON-like values, modelling the JS values flowing through the handler.
The constructor JsonValue.null also stands for the JS undefined where a
missing object property is read. -/
inductive JsonValue where
  | str (s : String)
  | num (n : Int)
  | bool (b : Bool)
  | null
  | arr (xs : List JsonValue)
  | obj (fields : List (String × JsonValue))

/-- Characters admitted by the id-capturing character class [a-zA-Z0-9-_]
of the regex in extractSpreadsheetId. -/
def isIdChar (c : Char) : Bool :=
  (('a' ≤ c && c ≤ 'z') || ('A' ≤ c && c ≤ 'Z') || ('0' ≤ c && c ≤ '9')
    || c = '-' || c = '_')

/-- Literal part of the regex in extractSpreadsheetId. -/
def urlMarker : List Char := "/spreadsheets/d/".data

/-- Matches a literal character sequence at the head of a string; on success
returns the remainder. Used to compile the literal part of the regex. -/
def stripLit : List Char → List Char → Option (List Char)
  | [], s => some s
  | _ :: _, [] => none
  | p :: ps, c :: cs => if c = p then stripLit ps cs else none

/-- Compiles the regex search of input.match on the pattern
/spreadsheets/d/ followed by one or more id characters: the leftmost
position where the literal occurs followed by at least one id character
wins, and the capture is the maximal id-character run there. -/
def findMatch : List Char → Option (List Char)
  | [] => none
  | c :: rest =>
    match stripLit urlMarker (c :: rest) with
    | some after =>
      if after.takeWhile isIdChar = [] then findMatch rest
      else some (after.takeWhile isIdChar)
    | none => findMatch rest

/-- Embedding of extractSpreadsheetId from src/api/mcp.ts lines 22-25:
return the first regex capture when the input matches, else the input. -/
def extractSpreadsheetId (input : String) : String :=
  match findMatch input.data with
  | some captured => String.mk captured
  | none => input

/-- Correlation id of a JSON-RPC request: number, string or null. The null
case also stands for an absent id field. -/
inductive RpcId where
  | num (n : Int)
  | str (s : String)
  | null
deriving DecidableEq

/-- Error object of a JSON-RPC response, as built by createError. -/
structure RpcError where
  code : Int
  message : String

/-- JsonRpcResponse from src/api/mcp.ts lines 251-256: jsonrpc tag, echoed
id, optional result and optional error. -/
structure RpcResponse where
  jsonrpc : String
  id : RpcId
  result : Option JsonValue
  error : Option RpcError

/-- Embedding of createResponse (src/api/mcp.ts lines 258-260). -/
def createResponse (id : RpcId) (result : JsonValue) : RpcResponse :=
  { jsonrpc := "2.0", id := id, result := some result, error := none }

/-- Embedding of createError (src/api/mcp.ts lines 262-264). -/
def createError (id : RpcId) (code : Int) (message : String) : RpcResponse :=
  { jsonrpc := "2.0", id := id, result := none,
    error := some { code := code, message := message } }

/-- What the HTTP handler sends back: either an empty body with a status
(the OPTIONS branch) or a status with a JSON-RPC response body. -/
inductive HandlerOutput where
  | empty (status : Nat)
  | json (status : Nat) (body : RpcResponse)

/-- Params of a tools/call request as the handler casts them: an optional
name and an optional arguments mapping. -/
structure ToolCallParams where
  name : Option String
  arguments : Option (List (String × JsonValue))

/-- JsonRpcRequest from src/api/mcp.ts lines 244-249. The jsonrpc field is
optional since the body is an unchecked cast; the id being absent or null
is collapsed into RpcId.null, matching the id ?? null coalescing and JSON
serialization of the response. -/
structure RpcRequest where
  jsonrpc : Option String
  id : RpcId
  method : String
  params : Option ToolCallParams

/-- Description of one call made to the external Google Sheets/Drive
client, carrying exactly the request data the source passes. -/
inductive ExtCall where
  | driveFilesList (q fields : String) (pageSize : Nat) (orderBy : String)
  | spreadsheetsGet (spreadsheetId fields : String)
  | valuesGet (spreadsheetId : String) (range : JsonValue)
  | valuesUpdate (spreadsheetId : String) (range : JsonValue)
      (valueInputOption : String) (values : JsonValue)
  | valuesAppend (spreadsheetId : String) (range : JsonValue)
      (valueInputOption insertDataOption : String) (values : JsonValue)
  | valuesClear (spreadsheetId : String) (range : JsonValue)
  | spreadsheetsCreate (requestBody : JsonValue)
  | batchUpdate (spreadsheetId : String) (requestBody : JsonValue)

/-- Oracle for the external client: maps each call either to the response
data or to a thrown failure message. -/
def ExtClient : Type := ExtCall → Except String JsonValue

/-- First binding of a key in an argument/field mapping, like a JS object
property lookup (none standing for undefined). -/
def lookupField : List (String × JsonValue) → String → Option JsonValue
  | [], _ => none
  | (k, v) :: rest, key => if k = key then some v else lookupField rest key

/-- Reading a property of a JS value: an object yields the field or
undefined (modelled JsonValue.null); anything else yields undefined. -/
def jsonGet (v : JsonValue) (key : String) : JsonValue :=
  match v with
  | .obj fields => (lookupField fields key).getD .null
  | _ => .null

/-- Indexing a JS array value; out of range or non-array yields undefined
(modelled JsonValue.null). -/
def jsonIndex (v : JsonValue) (i : Nat) : JsonValue :=
  match v with
  | .arr xs => (xs.get? i).getD .null
  | _ => .null

/-- Falsiness of a JS value, for the || defaulting in the source. -/
def jsFalsy : JsonValue → Bool
  | .null => true
  | .bool b => !b
  | .num n => n = 0
  | .str s => s = ""
  | _ => false

/-- Embedding of the JS a || b defaulting idiom. -/
def jsOr (a b : JsonValue) : JsonValue := if jsFalsy a then b else a

/-- Entry of the MCP tool registry: name, description and parameter
schema, as in the toolDefinitions array of src/api/mcp.ts lines 28-132. -/
structure ToolDefinition where
  name : String
  description : String
  inputSchema : JsonValue

/-- Schema fragment for a string-typed property with a description. -/
def strProp (desc : String) : JsonValue :=
  .obj [("type", .str "string"), ("description", .str desc)]

/-- Schema fragment for a number-typed property with a description. -/
def numProp (desc : String) : JsonValue :=
  .obj [("type", .str "number"), ("description", .str desc)]

/-- Schema fragment for an array-typed property with a description. -/
def arrProp (desc : String) : JsonValue :=
  .obj [("type", .str "array"), ("description", .str desc)]

/-- Schema of an object with the given properties and required names. -/
def objSchema (props : List (String × JsonValue)) (required : List String) : JsonValue :=
  .obj [("type", .str "object"), ("properties", .obj props),
        ("required", .arr (required.map JsonValue.str))]

/-- Embedding of the toolDefinitions registry, src/api/mcp.ts lines
28-132: the nine tools with their schemas. -/
def toolDefinitions : List ToolDefinition :=
  [ { name := "list_spreadsheets",
      description := "List all Google Spreadsheets accessible by the service account",
      inputSchema := objSchema [] [] },
    { name := "get_spreadsheet_info",
      description := "Get metadata and sheet names for a spreadsheet",
      inputSchema := objSchema
        [("spreadsheet_id", strProp "Spreadsheet ID or URL")]
        ["spreadsheet_id"] },
    { name := "read_range",
      description := "Read data from a specific range in a spreadsheet",
      inputSchema := objSchema
        [("spreadsheet_id", strProp "Spreadsheet ID or URL"),
         ("range", strProp "A1 notation range (e.g., 'Sheet1!A1:D10')")]
        ["spreadsheet_id", "range"] },
    { name := "write_range",
      description := "Write data to a specific range in a spreadsheet",
      inputSchema := objSchema
        [("spreadsheet_id", strProp "Spreadsheet ID or URL"),
         ("range", strProp "A1 notation range (e.g., 'Sheet1!A1')"),
         ("values", arrProp "2D array of values to write")]
        ["spreadsheet_id", "range", "values"] },
    { name := "append_data",
      description := "Append rows to the end of a sheet",
      inputSchema := objSchema
        [("spreadsheet_id", strProp "Spreadsheet ID or URL"),
         ("range", strProp "Sheet name or A1 range to append to"),
         ("values", arrProp "2D array of rows to append")]
        ["spreadsheet_id", "range", "values"] },
    { name := "clear_range",
      description := "Clear data from a specific range",
      inputSchema := objSchema
        [("spreadsheet_id", strProp "Spreadsheet ID or URL"),
         ("range", strProp "A1 notation range to clear")]
        ["spreadsheet_id", "range"] },
    { name := "create_spreadsheet",
      description := "Create a new Google Spreadsheet",
      inputSchema := objSchema
        [("title", strProp "Title for the new spreadsheet"),
         ("sheet_titles", .obj [("type", .str "array"),
            ("items", .obj [("type", .str "string")]),
            ("description", .str "Optional list of sheet names")])]
        ["title"] },
    { name := "add_sheet",
      description := "Add a new sheet to a spreadsheet",
      inputSchema := objSchema
        [("spreadsheet_id", strProp "Spreadsheet ID or URL"),
         ("title", strProp "Name for the new sheet"),
         ("index", numProp "Optional position (0-based index)")]
        ["spreadsheet_id", "title"] },
    { name := "duplicate_sheet",
      description := "Duplicate/copy an existing sheet within a spreadsheet",
      inputSchema := objSchema
        [("spreadsheet_id", strProp "Spreadsheet ID or URL"),
         ("sheet_id", numProp "Source sheet ID (get from get_spreadsheet_info)"),
         ("new_title", strProp "Name for the duplicated sheet (optional)"),
         ("insert_index", numProp "Position for the new sheet (optional)")]
        ["spreadsheet_id", "sheet_id"] } ]

/-- Names of the registered tools, in registry order. -/
def toolNames : List String := toolDefinitions.map ToolDefinition.name

/-- Normalizing the spreadsheet_id argument: the source evaluates
extractSpreadsheetId(args.spreadsheet_id as string), whose .match call
throws a TypeError at runtime when the argument is absent or not a
string. -/
def extractIdArg (v : Option JsonValue) : Except String String :=
  match v with
  | some (.str s) => .ok (extractSpreadsheetId s)
  | _ => .error "TypeError: input.match is not a function"

/-- Argument read that the source forwards verbatim into the external
request, with absence modelled as undefined (JsonValue.null). -/
def argOrUndef (args : List (String × JsonValue)) (key : String) : JsonValue :=
  (lookupField args key).getD .null

/-- Properties object returned by add_sheet and duplicate_sheet from the
batchUpdate response: replies?.[0]?.<reply>?.properties projected to
sheetId, title and index. -/
def replyProps (response : JsonValue) (reply : String) : JsonValue :=
  let props := jsonGet (jsonGet (jsonIndex (jsonGet response "replies") 0) reply) "properties"
  .obj [("sheetId", jsonGet props "sheetId"),
        ("title", jsonGet props "title"),
        ("index", jsonGet props "index")]

/-- Embedding of handleToolCall, src/api/mcp.ts lines 135-241: dispatch on
the tool name, normalize the spreadsheet id, call the external client and
shape its response; an unregistered name throws an Unknown tool error. -/
def handleToolCall (ext : ExtClient) (name : String)
    (args : List (String × JsonValue)) : Except String JsonValue :=
  if name = "list_spreadsheets" then do
    let response ← ext (.driveFilesList
      "mimeType='application/vnd.google-apps.spreadsheet'"
      "files(id, name, modifiedTime, webViewLink)" 50 "modifiedTime desc")
    pure (jsOr (jsonGet response "files") (.arr []))
  else if name = "get_spreadsheet_info" then do
    let id ← extractIdArg (lookupField args "spreadsheet_id")
    let response ← ext (.spreadsheetsGet id "properties,sheets.properties")
    pure response
  else if name = "read_range" then do
    let id ← extractIdArg (lookupField args "spreadsheet_id")
    let response ← ext (.valuesGet id (argOrUndef args "range"))
    pure (jsOr (jsonGet response "values") (.arr []))
  else if name = "write_range" then do
    let id ← extractIdArg (lookupField args "spreadsheet_id")
    let response ← ext (.valuesUpdate id (argOrUndef args "range")
      "USER_ENTERED" (argOrUndef args "values"))
    pure (.obj [("updatedCells", jsonGet response "updatedCells"),
                ("updatedRange", jsonGet response "updatedRange")])
  else if name = "append_data" then do
    let id ← extractIdArg (lookupField args "spreadsheet_id")
    let response ← ext (.valuesAppend id (argOrUndef args "range")
      "USER_ENTERED" "INSERT_ROWS" (argOrUndef args "values"))
    pure (.obj [("updatedRows", jsonGet (jsonGet response "updates") "updatedRows"),
                ("tableRange", jsonGet response "tableRange")])
  else if name = "clear_range" then do
    let id ← extractIdArg (lookupField args "spreadsheet_id")
    let _ ← ext (.valuesClear id (argOrUndef args "range"))
    pure (.obj [("cleared", argOrUndef args "range")])
  else if name = "create_spreadsheet" then do
    let base : List (String × JsonValue) :=
      [("properties", .obj [("title", argOrUndef args "title")])]
    let requestBody : JsonValue :=
      match lookupField args "sheet_titles" with
      | some (.arr titles) =>
        if titles.length > 0 then
          .obj (base ++ [("sheets", .arr (titles.map (fun t =>
            .obj [("properties", .obj [("title", t)])])))])
        else .obj base
      | _ => .obj base
    let response ← ext (.spreadsheetsCreate requestBody)
    let sheetTitles : JsonValue :=
      match jsonGet response "sheets" with
      | .arr ss => .arr (ss.map (fun s => jsonGet (jsonGet s "properties") "title"))
      | _ => .null
    pure (.obj [("spreadsheetId", jsonGet response "spreadsheetId"),
                ("spreadsheetUrl", jsonGet response "spreadsheetUrl"),
                ("sheets", sheetTitles)])
  else if name = "add_sheet" then do
    let id ← extractIdArg (lookupField args "spreadsheet_id")
    let response ← ext (.batchUpdate id (.obj [("requests", .arr [
      .obj [("addSheet", .obj [("properties", .obj
        [("title", argOrUndef args "title"),
         ("index", argOrUndef args "index")])])]])]))
    pure (replyProps response "addSheet")
  else if name = "duplicate_sheet" then do
    let id ← extractIdArg (lookupField args "spreadsheet_id")
    let response ← ext (.batchUpdate id (.obj [("requests", .arr [
      .obj [("duplicateSheet", .obj
        [("sourceSheetId", argOrUndef args "sheet_id"),
         ("newSheetName", argOrUndef args "new_title"),
         ("insertSheetIndex", argOrUndef args "insert_index")])]])]))
    pure (replyProps response "duplicateSheet")
  else
    .error ("Unknown tool: " ++ name)

/-- Static result of the initialize method, src/api/mcp.ts lines 291-295. -/
def initializeResult : JsonValue :=
  .obj [("protocolVersion", .str "2024-11-05"),
        ("serverInfo", .obj [("name", .str "google-sheets-mcp"),
                             ("version", .str "1.0.0")]),
        ("capabilities", .obj [("tools", .obj [])])]

/-- Rendering of one registry entry inside the tools/list result. -/
def toolDefJson (t : ToolDefinition) : JsonValue :=
  .obj [("name", .str t.name),
        ("description", .str t.description),
        ("inputSchema", t.inputSchema)]

/-- Result of the tools/list method: the registry as descriptors,
src/api/mcp.ts line 301. -/
def toolsListResult : JsonValue :=
  .obj [("tools", .arr (toolDefinitions.map toolDefJson))]

/-- Serialization stand-in for JSON.stringify of a tool result. Claims
never inspect its output on success payloads; it is injective enough for
the statements proved here. -/
def stringifyJson : JsonValue → String
  | .str s => "\x22" ++ s ++ "\x22"
  | .num n => toString n
  | .bool b => if b then "true" else "false"
  | .null => "null"
  | .arr xs => "[" ++ String.intercalate "," (xs.attach.map (fun x => stringifyJson x.1)) ++ "]"
  | .obj fields => "\x7b" ++ String.intercalate ","
      (fields.attach.map (fun f => "\x22" ++ f.1.1 ++ "\x22:" ++ stringifyJson f.1.2)) ++ "\x7d"
decreasing_by
  · simp_wf
    have := List.sizeOf_lt_of_mem x.2
    omega
  · simp_wf
    have h1 := List.sizeOf_lt_of_mem f.2
    obtain ⟨⟨a, b⟩, hf⟩ := f
    simp at h1 ⊢
    omega

/-- Payload of a successful tools/call, src/api/mcp.ts lines 310-312. -/
def toolSuccessPayload (result : JsonValue) : JsonValue :=
  .obj [("content", .arr [.obj [("type", .str "text"),
                                ("text", .str (stringifyJson result))]])]

/-- Payload of a failed tools/call, src/api/mcp.ts lines 314-317: the
failure message wrapped as text plus the isError flag. -/
def toolErrorPayload (msg : String) : JsonValue :=
  .obj [("content", .arr [.obj [("type", .str "text"),
                                ("text", .str ("Error: " ++ msg))]]),
        ("isError", .bool true)]

/-- Tool name from the params, as the falsy check !params?.name sees it:
undefined params, an absent name or an empty name yield none. -/
def nameFromParams : Option ToolCallParams → Option String
  | some { name := some n, arguments := _ } => if n = "" then none else some n
  | _ => none

/-- Arguments mapping passed to handleToolCall: params.arguments or the
empty mapping, src/api/mcp.ts line 309. -/
def argsOrEmpty : Option ToolCallParams → List (String × JsonValue)
  | some { name := _, arguments := some a } => a
  | _ => []

/-- Embedding of the exported HTTP handler, src/api/mcp.ts lines 266-327:
answer OPTIONS, reject non-POST, validate the jsonrpc tag, then route by
method name. The outer catch converting an uncaught routing failure into
a -32603 error has no reachable counterpart in this pure model. -/
def handler (ext : ExtClient) (reqMethod : String) (request : RpcRequest) :
    HandlerOutput :=
  if reqMethod = "OPTIONS" then .empty 200
  else if reqMethod ≠ "POST" then
    .json 405 (createError .null (-32600) "Method not allowed")
  else if request.jsonrpc ≠ some "2.0" then
    .json 400 (createError request.id (-32600) "Invalid JSON-RPC version")
  else if request.method = "initialize" then
    .json 200 (createResponse request.id initializeResult)
  else if request.method = "notifications/initialized" then
    .json 200 (createResponse request.id (.obj []))
  else if request.method = "tools/list" then
    .json 200 (createResponse request.id toolsListResult)
  else if request.method = "tools/call" then
    match nameFromParams request.params with
    | none => .json 400 (createError request.id (-32602) "Missing tool name")
    | some name =>
      match handleToolCall ext name (argsOrEmpty request.params) with
      | .ok result => .json 200 (createResponse request.id (toolSuccessPayload result))
      | .error e => .json 200 (createResponse request.id (toolErrorPayload e))
  else
    .json 400 (createError request.id (-32601)
      ("Method not found: " ++ request.method))

/-- Concrete external client on which every call fails, simulating an
external-service failure. -/
def extAllFail : ExtClient := fun _ => .error "boom"

/-! Lemmas about the identifier normalizer. -/

theorem stripLit_eq_some {p s r : List Char} (h : stripLit p s = some r) :
    s = p ++ r := by
  induction p generalizing s with
  | nil => simpa [stripLit] using h
  | cons a ps ih =>
    cases s with
    | nil => simp [stripLit] at h
    | cons c cs =>
      by_cases hc : c = a
      · subst hc
        simp only [stripLit, if_pos rfl] at h
        simpa using ih h
      · simp [stripLit, hc] at h

theorem stripLit_self_append (p r : List Char) : stripLit p (p ++ r) = some r := by
  induction p with
  | nil => simp [stripLit]
  | cons a ps ih => simp [stripLit, ih]

theorem findMatch_sound {l captured : List Char}
    (h : findMatch l = some captured) :
    captured ≠ [] ∧ (∀ c ∈ captured, isIdChar c = true) ∧
    ∃ pre post, l = pre ++ urlMarker ++ captured ++ post := by
  induction l with
  | nil => simp [findMatch] at h
  | cons c rest ih =>
    rw [findMatch] at h
    split at h
    · split at h
      · obtain ⟨hne, hall, pre, post, hdec⟩ := ih h
        exact ⟨hne, hall, c :: pre, post, by simp [hdec]⟩
      · next after hs hempty =>
        obtain rfl : after.takeWhile isIdChar = captured := by
          simpa using h
        refine ⟨hempty, fun x hx => List.mem_takeWhile_imp hx, [],
          after.dropWhile isIdChar, ?_⟩
        have hdecomp := stripLit_eq_some hs
        simp [hdecomp, List.takeWhile_append_dropWhile]
    · obtain ⟨hne, hall, pre, post, hdec⟩ := ih h
      exact ⟨hne, hall, c :: pre, post, by simp [hdec]⟩

theorem findMatch_isSome_of_shape {l pre tail : List Char} {c : Char}
    (hshape : l = pre ++ urlMarker ++ c :: tail) (hc : isIdChar c = true) :
    (findMatch l).isSome := by
  induction pre generalizing l with
  | nil =>
    subst hshape
    rw [List.nil_append]
    have hm : urlMarker ++ c :: tail = '/' :: ("spreadsheets/d/".data ++ c :: tail) := rfl
    rw [hm, findMatch, ← hm, stripLit_self_append]
    simp [List.takeWhile_cons, hc]
  | cons a pre ih =>
    subst hshape
    have hrest : (a :: pre) ++ urlMarker ++ c :: tail =
        a :: (pre ++ urlMarker ++ c :: tail) := by simp
    rw [hrest, findMatch]
    split
    · split
      · exact ih rfl
      · rfl
    · exact ih rfl

theorem findMatch_none_of_all_idChar {l : List Char}
    (h : ∀ c ∈ l, isIdChar c = true) : findMatch l = none := by
  induction l with
  | nil => rfl
  | cons c rest ih =>
    rw [findMatch]
    split
    · next after hs =>
      exfalso
      have hdecomp := stripLit_eq_some hs
      have hc : c = '/' := by
        have hcons : c :: rest = '/' :: ("spreadsheets/d/".data ++ after) := by
          simpa [urlMarker] using hdecomp
        exact (List.cons_eq_cons.mp hcons).1
      have hcid := h c (List.mem_cons_self c rest)
      rw [hc] at hcid
      simp [isIdChar] at hcid
    · exact ih fun x hx => h x (List.mem_cons_of_mem _ hx)

/-! Claim theorems about the identifier normalizer. -/

/-- C3: the identifier normalizer is a pure total function; whenever the
input matches the document-URL shape containing /spreadsheets/d/ followed
by an id segment it returns exactly the captured id segment (a nonempty
run of id characters occurring in the input right after the marker), a
match is found whenever that shape occurs in the input, and every other
string is returned unchanged. -/
theorem extractSpreadsheetId_normalizes (s : String) :
    (∀ captured, findMatch s.data = some captured →
      extractSpreadsheetId s = String.mk captured ∧
      captured ≠ [] ∧ (∀ c ∈ captured, isIdChar c = true) ∧
      ∃ pre post, s.data = pre ++ urlMarker ++ captured ++ post) ∧
    (∀ pre c tail, s.data = pre ++ urlMarker ++ c :: tail →
      isIdChar c = true → (findMatch s.data).isSome) ∧
    (findMatch s.data = none → extractSpreadsheetId s = s) := by
  refine ⟨?_, ?_, ?_⟩
  · intro captured h
    obtain ⟨hne, hall, pre, post, hdec⟩ := findMatch_sound h
    exact ⟨by simp [extractSpreadsheetId, h], hne, hall, pre, post, hdec⟩
  · intro pre c tail hshape hc
    exact findMatch_isSome_of_shape hshape hc
  · intro h
    simp [extractSpreadsheetId, h]

/-- Witness for C3: the normalizer evaluated on a concrete document URL
returns the captured id. -/
theorem extractSpreadsheetId_normalizes_witness :
    extractSpreadsheetId "https://docs.google.com/spreadsheets/d/aB3-_x9/edit#gid=0" =
      String.mk "aB3-_x9".data :=
  ((extractSpreadsheetId_normalizes
    "https://docs.google.com/spreadsheets/d/aB3-_x9/edit#gid=0").1
    "aB3-_x9".data (by rfl)).1

/-- C4: the identifier normalizer is idempotent: normalizing twice equals
normalizing once, for every input string. -/
theorem extractSpreadsheetId_idempotent (s : String) :
    extractSpreadsheetId (extractSpreadsheetId s) = extractSpreadsheetId s := by
  cases h : findMatch s.data with
  | none => simp [extractSpreadsheetId, h]
  | some captured =>
    obtain ⟨hne, hall, _⟩ := findMatch_sound h
    have h2 : findMatch (String.mk captured).data = none :=
      findMatch_none_of_all_idChar (by simpa using hall)
    simp [extractSpreadsheetId, h, h2]

/-! Claim theorems about the envelope dispatcher. -/

theorem mem_toolNames_ne_empty {name : String} (h : name ∈ toolNames) :
    name ≠ "" := by
  intro heq
  subst heq
  revert h
  decide

/-- C9: two initialize requests with valid envelopes receive the same
fixed result payload initializeResult, regardless of the ids, the params
and the external client. -/
theorem initialize_result_constant (ext1 ext2 : ExtClient) (rid1 rid2 : RpcId)
    (p1 p2 : Option ToolCallParams) :
    handler ext1 "POST" ⟨some "2.0", rid1, "initialize", p1⟩ =
      .json 200 (createResponse rid1 initializeResult) ∧
    handler ext2 "POST" ⟨some "2.0", rid2, "initialize", p2⟩ =
      .json 200 (createResponse rid2 initializeResult) ∧
    (createResponse rid1 initializeResult).result =
      (createResponse rid2 initializeResult).result := by
  exact ⟨rfl, rfl, rfl⟩

/-- C7: a valid envelope whose method is none of the four recognized
protocol methods is answered with a -32601 error whose message carries
the unrecognized method name, the request id being echoed. -/
theorem unknown_method_yields_32601 (ext : ExtClient) (rid : RpcId)
    (m : String) (params : Option ToolCallParams)
    (h : m ∉ ["initialize", "notifications/initialized", "tools/list", "tools/call"]) :
    handler ext "POST" ⟨some "2.0", rid, m, params⟩ =
      .json 400 (createError rid (-32601) ("Method not found: " ++ m)) ∧
    ∃ before, "Method not found: " ++ m = before ++ m := by
  simp only [List.mem_cons, List.not_mem_nil, or_false, not_or] at h
  obtain ⟨h1, h2, h3, h4⟩ := h
  exact ⟨by simp [handler, h1, h2, h3, h4], "Method not found: ", rfl⟩

/-- Witness for C7 at the method name of end-to-end scenario 2. -/
theorem unknown_method_yields_32601_witness :
    handler extAllFail "POST" ⟨some "2.0", RpcId.num 1, "unknown/method", none⟩ =
      .json 400 (createError (RpcId.num 1) (-32601)
        ("Method not found: " ++ "unknown/method")) ∧
    ∃ before, "Method not found: " ++ "unknown/method" = before ++ "unknown/method" :=
  unknown_method_yields_32601 extAllFail (RpcId.num 1) "unknown/method" none
    (by decide)

/-- C6 counterexample: a POST whose envelope lacks the protocol tag but
carries id 7 is answered with the -32600 invalid-envelope error echoing
id 7, not the null correlation id the claim requires. -/
theorem invalid_envelope_null_id_counterexample :
    handler extAllFail "POST" ⟨none, RpcId.num 7, "tools/list", none⟩ =
      .json 400 (createError (RpcId.num 7) (-32600) "Invalid JSON-RPC version") ∧
    RpcId.num 7 ≠ RpcId.null := by
  exact ⟨rfl, by decide⟩

/-- C6 amended: a POST whose envelope lacks the protocol tag or carries a
wrong one is answered with the -32600 invalid-envelope error before any
method routing (the same output for every method name), with the
correlation id echoed from the request, null only when the request id is
itself null or absent. -/
theorem invalid_envelope_error (ext : ExtClient) (rid : RpcId) (m : String)
    (params : Option ToolCallParams) (jz : Option String)
    (h : jz ≠ some "2.0") :
    handler ext "POST" ⟨jz, rid, m, params⟩ =
      .json 400 (createError rid (-32600) "Invalid JSON-RPC version") := by
  simp [handler, h]

/-- Witness for C6 amended: missing protocol tag at a concrete request. -/
theorem invalid_envelope_error_witness :
    handler extAllFail "POST" ⟨none, RpcId.str "x", "initialize", none⟩ =
      .json 400 (createError (RpcId.str "x") (-32600) "Invalid JSON-RPC version") :=
  invalid_envelope_error extAllFail (RpcId.str "x") "initialize" none none
    (by decide)

/-- C5: tools/list answers with the registry rendered as descriptors, one
per tool in registry order and nothing else; the registry has exactly
nine distinct tools; and the response is the same for every external
client, so no tool handler is invoked in producing it. -/
theorem tools_list_returns_registry (ext1 ext2 : ExtClient) (rid : RpcId)
    (params : Option ToolCallParams) :
    handler ext1 "POST" ⟨some "2.0", rid, "tools/list", params⟩ =
      .json 200 (createResponse rid
        (.obj [("tools", .arr (toolDefinitions.map toolDefJson))])) ∧
    handler ext1 "POST" ⟨some "2.0", rid, "tools/list", params⟩ =
      handler ext2 "POST" ⟨some "2.0", rid, "tools/list", params⟩ ∧
    toolDefinitions.length = 9 ∧
    toolNames = ["list_spreadsheets", "get_spreadsheet_info", "read_range",
      "write_range", "append_data", "clear_range", "create_spreadsheet",
      "add_sheet", "duplicate_sheet"] ∧
    toolNames.Nodup := by
  exact ⟨rfl, rfl, rfl, rfl, by decide⟩

/-- C1: when a registered tool's handler fails, the dispatcher answers
with HTTP success and a response envelope that carries no envelope-level
error, echoes the request id, and whose result payload flags isError true
with a text describing the failure. -/
theorem tool_failure_is_transport_success (ext : ExtClient) (rid : RpcId)
    (name : String) (argsv : Option (List (String × JsonValue))) (msg : String)
    (hreg : name ∈ toolNames)
    (hfail : handleToolCall ext name (argsOrEmpty (some ⟨some name, argsv⟩)) =
      .error msg) :
    handler ext "POST" ⟨some "2.0", rid, "tools/call", some ⟨some name, argsv⟩⟩ =
      .json 200 { jsonrpc := "2.0", id := rid,
                  result := some (toolErrorPayload msg), error := none } ∧
    jsonGet (toolErrorPayload msg) "isError" = .bool true ∧
    jsonGet (jsonIndex (jsonGet (toolErrorPayload msg) "content") 0) "text" =
      .str ("Error: " ++ msg) := by
  have hne := mem_toolNames_ne_empty hreg
  refine ⟨?_, rfl, rfl⟩
  have hname : nameFromParams (some ⟨some name, argsv⟩) = some name := by
    simp [nameFromParams, hne]
  simp [handler, hname, hfail, createResponse]

/-- Witness for C1: a failing external client turned into an isError
payload on a concrete read_range call. -/
theorem tool_failure_is_transport_success_witness :
    (handler extAllFail "POST" ⟨some "2.0", RpcId.num 1, "tools/call",
        some ⟨some "read_range",
          some [("spreadsheet_id", JsonValue.str "X"),
                ("range", JsonValue.str "Sheet1!A1:B2")]⟩⟩ =
      .json 200 { jsonrpc := "2.0", id := RpcId.num 1,
                  result := some (toolErrorPayload "boom"), error := none }) ∧
    jsonGet (toolErrorPayload "boom") "isError" = .bool true ∧
    jsonGet (jsonIndex (jsonGet (toolErrorPayload "boom") "content") 0) "text" =
      .str ("Error: " ++ "boom") :=
  tool_failure_is_transport_success extAllFail (RpcId.num 1) "read_range"
    (some [("spreadsheet_id", JsonValue.str "X"),
           ("range", JsonValue.str "Sheet1!A1:B2")])
    "boom" (by decide) (by rfl)

theorem handleToolCall_unknown (ext : ExtClient) {name : String}
    (habs : name ∉ toolNames) (args : List (String × JsonValue)) :
    handleToolCall ext name args = .error ("Unknown tool: " ++ name) := by
  simp only [toolNames, toolDefinitions, List.map_cons, List.map_nil,
    List.mem_cons, List.not_mem_nil, or_false, not_or] at habs
  obtain ⟨h1, h2, h3, h4, h5, h6, h7, h8, h9⟩ := habs
  simp [handleToolCall, h1, h2, h3, h4, h5, h6, h7, h8, h9]

/-- C2 counterexample: a tools/call naming the unregistered tool
no_such_tool is answered with a transport-successful envelope (HTTP 200,
error field absent, result present with isError true), not with a -32602
or any other envelope-level error as the claim requires. -/
theorem unknown_tool_counterexample :
    handler extAllFail "POST" ⟨some "2.0", RpcId.num 1, "tools/call",
        some ⟨some "no_such_tool", none⟩⟩ =
      .json 200 { jsonrpc := "2.0", id := RpcId.num 1,
                  result := some (toolErrorPayload ("Unknown tool: " ++ "no_such_tool")),
                  error := none } := by
  rfl

/-- C2 amended: only a tools/call whose params lack a tool name (absent
or empty) gets the -32602 Missing tool name envelope error; a tools/call
naming a tool absent from the registry instead gets a transport-successful
envelope whose payload flags isError true with the Unknown tool message. -/
theorem unknown_tool_is_tool_level_error (ext : ExtClient) (rid : RpcId)
    (name : String) (argsv : Option (List (String × JsonValue)))
    (hne : name ≠ "") (habs : name ∉ toolNames) :
    handler ext "POST" ⟨some "2.0", rid, "tools/call", some ⟨some name, argsv⟩⟩ =
      .json 200 { jsonrpc := "2.0", id := rid,
                  result := some (toolErrorPayload ("Unknown tool: " ++ name)),
                  error := none } ∧
    (∀ params, nameFromParams params = none →
      handler ext "POST" ⟨some "2.0", rid, "tools/call", params⟩ =
        .json 400 (createError rid (-32602) "Missing tool name")) := by
  constructor
  · have hname : nameFromParams (some ⟨some name, argsv⟩) = some name := by
      simp [nameFromParams, hne]
    simp [handler, hname, handleToolCall_unknown ext habs, createResponse]
  · intro params hp
    simp [handler, hp]

/-- Witness for C2 amended: a concrete unregistered tool name. -/
theorem unknown_tool_is_tool_level_error_witness :
    handler extAllFail "POST" ⟨some "2.0", RpcId.num 2, "tools/call",
        some ⟨some "frobnicate", none⟩⟩ =
      .json 200 { jsonrpc := "2.0", id := RpcId.num 2,
                  result := some (toolErrorPayload ("Unknown tool: " ++ "frobnicate")),
                  error := none } :=
  (unknown_tool_is_tool_level_error extAllFail (RpcId.num 2) "frobnicate" none
    (by decide) (by decide)).1

/-- C8: every JSON-RPC body the dispatcher produces carries exactly one
of result and error: one of the two fields is present and the other is
absent. -/
theorem response_result_error_exclusive (ext : ExtClient) (reqMethod : String)
    (request : RpcRequest) (status : Nat) (body : RpcResponse)
    (h : handler ext reqMethod request = .json status body) :
    (body.result.isSome ∧ body.error = none) ∨
    (body.result = none ∧ body.error.isSome) := by
  unfold handler at h
  repeat' split at h
  all_goals first
    | (obtain ⟨-, rfl⟩ := h; simp [createResponse, createError])
    | simp at h

/-- Witness for C8 on the initialize response. -/
theorem response_result_error_exclusive_witness :
    ((createResponse (RpcId.num 3) initializeResult).result.isSome ∧
      (createResponse (RpcId.num 3) initializeResult).error = none) ∨
    ((createResponse (RpcId.num 3) initializeResult).result = none ∧
      (createResponse (RpcId.num 3) initializeResult).error.isSome) :=
  response_result_error_exclusive extAllFail "POST"
    ⟨some "2.0", RpcId.num 3, "initialize", none⟩ 200
    (createResponse (RpcId.num 3) initializeResult) (by rfl)

/-- C10: the dispatcher validates no arguments against the declared
schemas: the arguments mapping, or the empty mapping when absent, is
handed to the tool handler unchanged for every registered tool, and a
read_range call omitting the required spreadsheet_id argument yields a
transport-successful envelope flagging isError true (the TypeError the
normalizer raises on the missing argument), not a -32602 envelope
error. -/
theorem no_schema_validation (ext : ExtClient) (rid : RpcId)
    (argsv : Option (List (String × JsonValue)))
    (hmiss : lookupField (argsv.getD []) "spreadsheet_id" = none) :
    handler ext "POST" ⟨some "2.0", rid, "tools/call",
        some ⟨some "read_range", argsv⟩⟩ =
      .json 200 { jsonrpc := "2.0", id := rid,
                  result := some (toolErrorPayload "TypeError: input.match is not a function"),
                  error := none } ∧
    (∀ name, name ∈ toolNames →
      handler ext "POST" ⟨some "2.0", rid, "tools/call", some ⟨some name, argsv⟩⟩ =
        (match handleToolCall ext name (argsv.getD []) with
         | .ok r => .json 200 (createResponse rid (toolSuccessPayload r))
         | .error e => .json 200 (createResponse rid (toolErrorPayload e)))) := by
  have hargs : argsOrEmpty (some ⟨some "read_range", argsv⟩) = argsv.getD [] := by
    cases argsv <;> simp [argsOrEmpty]
  constructor
  · have hfail : handleToolCall ext "read_range" (argsv.getD []) =
        .error "TypeError: input.match is not a function" := by
      simp only [handleToolCall, extractIdArg, hmiss]
      rfl
    have hname : nameFromParams (some ⟨some "read_range", argsv⟩) =
        some "read_range" := by simp [nameFromParams]
    simp [handler, hname, hargs, hfail, createResponse]
  · intro name hname
    have hne := mem_toolNames_ne_empty hname
    have hargs2 : argsOrEmpty (some ⟨some name, argsv⟩) = argsv.getD [] := by
      cases argsv <;> simp [argsOrEmpty]
    have hnp : nameFromParams (some ⟨some name, argsv⟩) = some name := by
      simp [nameFromParams, hne]
    simp only [handler, hnp, hargs2]
    split <;> simp_all

/-- Witness for C10: read_range called with only a range argument. -/
theorem no_schema_validation_witness :
    handler extAllFail "POST" ⟨some "2.0", RpcId.num 4, "tools/call",
        some ⟨some "read_range", some [("range", JsonValue.str "Sheet1!A1:B2")]⟩⟩ =
      .json 200 { jsonrpc := "2.0", id := RpcId.num 4,
                  result := some (toolErrorPayload "TypeError: input.match is not a function"),
                  error := none } :=
  (no_schema_validation extAllFail (RpcId.num 4)
    (some [("range", JsonValue.str "Sheet1!A1:B2")]) (by rfl)).1

end SheetsMcp
